import Mathlib

/-!
Shallow embedding of the multi-dimensional frame addressing and display
transform engine of `ismrmrdviewer` (`src/ismrmrdviewer/viewer/ImageViewer.py`),
together with theorems settling the frozen claims about it.

Conventions of the embedding:
* Python/numpy floats are modelled as rationals (`ℚ`); the clamping and
  window/level formulas involve only comparisons and exact ring operations.
* A numpy 2-D array is an `Img`: explicit row/column counts with a pixel
  function over in-range indices.
* Fallible operations (out-of-range indexing, division by zero) return
  `Except`/`Option` values instead of raising.
* The `ImageViewer` instance state is the `Viewer` structure; each method of
  the class that the claims touch is embedded as a function on `Viewer`.
-/

/-- A 2-D pixel frame (one numpy spatial slice): row/column counts and the
pixel value at each in-range position. -/
structure Img where
  rows : ℕ
  cols : ℕ
  px : Fin rows → Fin cols → ℚ

/-- `np.rot90(m, k=1, axes=(0,1))`: one counter-clockwise quarter turn;
`rot90(m)[i, j] = m[j, C-1-i]` where `C` is the column count of `m`. -/
def rot90 (im : Img) : Img where
  rows := im.cols
  cols := im.rows
  px i j := im.px j ⟨im.cols - 1 - i.val, by have h := i.isLt; omega⟩

/-- `np.flip(m, axis=1)`: mirror along columns (horizontal flip). -/
def flipCols (im : Img) : Img where
  rows := im.rows
  cols := im.cols
  px i j := im.px i ⟨im.cols - 1 - j.val, by have h := j.isLt; omega⟩

/-- `np.flip(m, axis=0)`: mirror along rows (vertical flip). -/
def flipRows (im : Img) : Img where
  rows := im.rows
  cols := im.cols
  px i j := im.px ⟨im.rows - 1 - i.val, by have h := i.isLt; omega⟩ j

/-- `np.rot90(m, k)` for an integer turn counter: `np.rot90` reduces `k`
modulo 4 and applies that many single quarter turns.  The viewer keeps
`self.nrot_` already reduced modulo 4 (Python `%` on a positive modulus is
`Int.emod`). -/
def rot90pow (k : ℤ) (im : Img) : Img :=
  rot90^[(k % 4).toNat] im

/-- The per-record pixel tensor addressed by this core, as stored in
`container.images.data[n]`: outer list indexed by channel, inner list by the
z axis, each entry one spatial slice. -/
abbrev RecPix := List (List Img)

/-- The coordinate fields of one image header
(`container.images.headers[n]`). -/
structure ImgHeader where
  repetition : ℕ
  set : ℕ
  phase : ℕ
  slice : ℕ
  contrast : ℕ

/-- One stored image entry: header coordinates plus the pixel tensor. -/
structure Record where
  header : ImgHeader
  pixels : RecPix

/-- The boolean mask entry computed by `fetch_image` for one header: the
conjunction of the five coordinate equality tests, in source order
(`phase`, `set`, `repetition`, `slice`, `contrast`). -/
def headerMatches (h : ImgHeader) (r s p sl c : ℕ) : Bool :=
  (h.phase == p) && (h.set == s) && (h.repetition == r) &&
    (h.slice == sl) && (h.contrast == c)

/-- Numpy boolean-mask indexing `a[mask]`: keep the entries whose mask bit is
set, in original order. -/
def maskSelect {α : Type} : List α → List Bool → List α
  | [], _ => []
  | _ :: _, [] => []
  | x :: xs, b :: bs => if b then x :: maskSelect xs bs else maskSelect xs bs

/-- The load-time preprocessing of `self.data_` applied to one record's
tensor: `np.flip(np.rot90(data, axes=(3,4)), axis=4)`, i.e. per spatial
slice a quarter turn followed by a column mirror.  (For complex-valued
storage the magnitude is taken first; the pixel values here are already
real.) -/
def preprocessPixels (rp : RecPix) : RecPix :=
  rp.map fun zs => zs.map fun f => flipCols (rot90 f)

/-- The scan inside `fetch_image` (the body under the `@cache` decorator):
build the five-equality boolean mask over all headers and index the
preprocessed data array `self.data_` with it. -/
def fetchImage (ds : List Record) (r s p sl c : ℕ) : List RecPix :=
  maskSelect (ds.map fun rec => preprocessPixels rec.pixels)
    (ds.map fun rec => headerMatches rec.header r s p sl c)

/-- The failure raised by an out-of-range numpy integer index
(`IndexError`, conceptually `OutOfRangeError` in the spec). -/
inductive PickErr where
  | outOfRange
deriving DecidableEq

/-- Numpy integer indexing into the leading axis: in-range yields the entry,
out-of-range raises. -/
def nget {α : Type} (l : List α) (i : ℕ) : Except PickErr α :=
  if h : i < l.length then .ok l[i] else .error .outOfRange

/-- The `(instance, channel)` pick applied to a resolved match set:
`fetched[instance][channel][0]` (leading z entry of the chosen channel). -/
def pick (ms : List RecPix) (inst chan : ℕ) : Except PickErr Img := do
  let rp ← nget ms inst
  let ch ← nget rp chan
  nget ch 0

/-- The `ImageViewer` session state touched by the claims: the container
records, the memoization cache of `fetch_image`, the geometric and contrast
transform state (`nrot_`, `fliph_`, `flipv_`, `window`, `level`), the
dataset intensity statistics (`min`, `max`, `range`), the drag anchor
(`mloc`), and the per-axis spinbox values. -/
structure Viewer where
  records : List Record
  cache : List ((ℕ × ℕ × ℕ × ℕ × ℕ) × List RecPix)
  nrot : ℤ
  fliph : Bool
  flipv : Bool
  window : ℚ
  level : ℚ
  min : ℚ
  max : ℚ
  range : ℚ
  mloc : Option (ℚ × ℚ)
  selInstance : ℕ
  selRepetition : ℕ
  selSet : ℕ
  selPhase : ℕ
  selChannel : ℕ
  selSlice : ℕ
  selContrast : ℕ

/-- Python dict lookup in the `@cache` table, keyed on the five-coordinate
argument tuple. -/
def cacheLookup : List ((ℕ × ℕ × ℕ × ℕ × ℕ) × List RecPix) →
    (ℕ × ℕ × ℕ × ℕ × ℕ) → Option (List RecPix)
  | [], _ => none
  | (k, res) :: rest, key => if k = key then some res else cacheLookup rest key

/-- `fetch_image` as actually called: the `@cache` wrapper around the scan.
Returns the match set, the updated viewer (cache possibly grown), and the
number of dataset scans performed by this call (`0` on a hit, `1` on a
miss). -/
def resolve (v : Viewer) (r s p sl c : ℕ) : List RecPix × Viewer × ℕ :=
  match cacheLookup v.cache (r, s, p, sl, c) with
  | some res => (res, v, 0)
  | none =>
      let res := fetchImage v.records r s p sl c
      (res, { v with cache := ((r, s, p, sl, c), res) :: v.cache }, 1)

/-- The geometric stage of `current_frame`: horizontal flip if set, then
vertical flip if set, then `np.rot90` by the quarter-turn counter. -/
def displayTransform (nrot : ℤ) (fh fv : Bool) (im : Img) : Img :=
  let im1 := if fh then flipCols im else im
  let im2 := if fv then flipRows im1 else im1
  rot90pow nrot im2

/-- `current_frame`: fetch the match set for the selected five-coordinate
tuple, pick `[instance][channel][0]`, and apply the geometric transform
state. -/
def current_frame (v : Viewer) : Except PickErr Img :=
  Except.map (displayTransform v.nrot v.fliph v.flipv)
    (pick (fetchImage v.records v.selRepetition v.selSet v.selPhase
        v.selSlice v.selContrast) v.selInstance v.selChannel)

/-- The same five-coordinate match set taken over the raw (un-preprocessed)
stored tensors `container.images.data`, used to compare the displayed frame
with the raw storage orientation. -/
def rawResolve (v : Viewer) : List RecPix :=
  maskSelect (v.records.map Record.pixels)
    (v.records.map fun rec => headerMatches rec.header v.selRepetition
      v.selSet v.selPhase v.selSlice v.selContrast)

/-- `rotate_cw`: increment the quarter-turn counter and reduce modulo 4. -/
def rotate_cw (v : Viewer) : Viewer :=
  { v with nrot := (v.nrot + 1) % 4 }

/-- `rotate_ccw`: decrement the quarter-turn counter and reduce modulo 4. -/
def rotate_ccw (v : Viewer) : Viewer :=
  { v with nrot := (v.nrot - 1) % 4 }

/-- `flip_h`: toggle the horizontal flip flag. -/
def flip_h (v : Viewer) : Viewer :=
  { v with fliph := !v.fliph }

/-- `flip_v`: toggle the vertical flip flag. -/
def flip_v (v : Viewer) : Viewer :=
  { v with flipv := !v.flipv }

/-- `window_level`: the `(clip_low, clip_high)` display range computed from
the stored window, level, range and min. -/
def window_level (v : Viewer) : ℚ × ℚ :=
  (v.level * v.range - v.window / 2 * v.range + v.min,
   v.level * v.range + v.window / 2 * v.range + v.min)

/-- `window_input`: the window spinbox handler stores `value / self.range`
(no clamping).  The division is fallible: a zero range is an unguarded
division by zero in the source. -/
def window_input (v : Viewer) (value : ℚ) : Option Viewer :=
  if v.range = 0 then none else some { v with window := value / v.range }

/-- `level_input`: the level spinbox handler stores `value / self.range`
(no clamping). -/
def level_input (v : Viewer) (value : ℚ) : Option Viewer :=
  if v.range = 0 then none else some { v with level := value / v.range }

/-- `mouseMoveEvent`: the window/level drag gesture.  With no anchor the
event only records the position; otherwise window and level move by the
drag delta scaled by 0.01 and are then clamped to `[0, 2]` and `[0, 1]`
respectively, before `update_wl` recomputes the clip range from the stored
(already clamped) values. -/
def mouseMoveEvent (v : Viewer) (newx newy : ℚ) : Viewer :=
  match v.mloc with
  | none => { v with mloc := some (newx, newy) }
  | some (mx, my) =>
      let w1 := v.window - (newx - mx) * (1 / 100)
      let l1 := v.level - (newy - my) * (1 / 100)
      let w2 := if w1 < 0 then (0 : ℚ) else w1
      let w3 := if w2 > 2 then (2 : ℚ) else w2
      let l2 := if l1 < 0 then (0 : ℚ) else l1
      let l3 := if l2 > 1 then (1 : ℚ) else l2
      { v with window := w3, level := l3, mloc := some (newx, newy) }

/-- The timer-tick advancement captured inside `animate_frames`: the selected
axis spinbox is set to `(value + 1) % maximum` where `maximum` is the
spinbox maximum (cardinality minus one). -/
def animIncrement (v m : ℕ) : ℕ :=
  (v + 1) % m

/-- `set_timer_interval`: the reconfigurable animation period `1000 / fps`
milliseconds. -/
def set_timer_interval (fps : ℚ) : ℚ :=
  1000 / fps

/-- The constructor loop disabling controls of singleton dimensions: for a
dimension whose spinbox maximum is `0` (cardinality 1) the dimension button
and spinbox are disabled and hidden.  Returns `(enabled, visible)`. -/
def initDimControls (maxVal : ℕ) : Bool × Bool :=
  if maxVal = 0 then (false, false) else (true, true)

/-- The animation-relevant state read and written by `animate_frames`: the
toggle state of the animate button after the click, the running timer (its
interval) if any, and the selected dimension spinbox maximum. -/
structure AnimState where
  checked : Bool
  timer : Option ℚ
  selMax : ℕ

/-- `animate_frames`: unchecked stops and clears the timer; checked with a
singleton selected dimension logs a warning, resets the toggle to off and
returns without creating a timer; otherwise a timer with the configured
interval is started.  The second component reports whether the
singleton-dimension warning was logged. -/
def animate_frames (s : AnimState) (interval : ℚ) : AnimState × Bool :=
  if s.checked = false then
    ({ s with timer := none }, false)
  else if s.selMax = 0 then
    ({ s with checked := false }, true)
  else
    ({ s with timer := some interval }, false)

/-- The constructor's contrast defaults: `range = max - min`,
`window = (p98 - p2) / range`, `level = (p98 + p2) / 2 / range`.  Both
divisions by `range` are unguarded in the source; a zero range is a
division by zero, modelled as failure. -/
def initContrastDefaults (dmin dmax p2 p98 : ℚ) : Option (ℚ × ℚ) :=
  let rng := dmax - dmin
  if rng = 0 then none
  else some ((p98 - p2) / rng, (p98 + p2) / 2 / rng)

/-- Observation helper: the pixel at `(i, j)` of a successfully picked
frame, `none` on a pick failure or out-of-range position. -/
def exElem (e : Except PickErr Img) (i j : ℕ) : Option ℚ :=
  match e with
  | .error _ => none
  | .ok im =>
      if h : i < im.rows ∧ j < im.cols then some (im.px ⟨i, h.1⟩ ⟨j, h.2⟩)
      else none

/-- Concrete asymmetric 2×2 test frame `[[0, 1], [2, 3]]`. -/
def testImgA : Img where
  rows := 2
  cols := 2
  px i j := ((i.val * 2 + j.val : ℕ) : ℚ)

/-- Concrete record at the all-zero coordinate tuple with one channel, one z
slice and the asymmetric test frame. -/
def testRecordA : Record where
  header := ⟨0, 0, 0, 0, 0⟩
  pixels := [[testImgA]]

/-- Concrete viewer: one matching record, identity transform state,
selection at the all-zero tuple, zero contrast statistics. -/
def baseViewer : Viewer where
  records := [testRecordA]
  cache := []
  nrot := 0
  fliph := false
  flipv := false
  window := 0
  level := 0
  min := 0
  max := 0
  range := 0
  mloc := none
  selInstance := 0
  selRepetition := 0
  selSet := 0
  selPhase := 0
  selChannel := 0
  selSlice := 0
  selContrast := 0

/-- Concrete viewer with the contrast statistics of a dataset of range 100,
used for window/level input examples. -/
def c6V : Viewer :=
  { baseViewer with range := 100 }

/-- Concrete viewer for the contrast-formula example: `min = 0`,
`max = 100`, `range = 100`, `window = 0.5`, `level = 0.5`. -/
def c3V : Viewer :=
  { baseViewer with min := 0, max := 100, range := 100,
                    window := 1 / 2, level := 1 / 2 }

/-- Concrete viewer with a recorded drag anchor, used as a witness input for
the drag-clamping theorem. -/
def dragViewer : Viewer :=
  { baseViewer with window := 5, level := -3, mloc := some (0, 0) }

/-! ## Helper lemmas -/

/-- Boolean-mask selection over a mapped list selects the mapped entries. -/
theorem maskSelect_map {α β : Type} (f : α → β) :
    ∀ (l : List α) (bs : List Bool),
      maskSelect (l.map f) bs = (maskSelect l bs).map f := by
  intro l
  induction l with
  | nil => intro bs; cases bs <;> rfl
  | cons x xs ih =>
      intro bs
      cases bs with
      | nil => rfl
      | cons b bs' => cases b <;> simp [maskSelect, ih]

/-- Boolean-mask selection with a pointwise-computed mask is a filter. -/
theorem maskSelect_map_mask {α : Type} (g : α → Bool) :
    ∀ (l : List α), maskSelect l (l.map g) = l.filter g := by
  intro l
  induction l with
  | nil => rfl
  | cons x xs ih => cases hg : g x <;> simp [maskSelect, List.filter_cons, hg, ih]

/-- The source boolean mask agrees with the five-way propositional
conjunction of coordinate equalities, stated in the claim's order. -/
theorem headerMatches_eq_decide (h : ImgHeader) (r s p sl c : ℕ) :
    headerMatches h r s p sl c =
      decide (h.repetition = r ∧ h.set = s ∧ h.phase = p ∧
        h.slice = sl ∧ h.contrast = c) := by
  by_cases h1 : h.repetition = r <;> by_cases h2 : h.set = s <;>
    by_cases h3 : h.phase = p <;> by_cases h4 : h.slice = sl <;>
    by_cases h5 : h.contrast = c <;>
    simp [headerMatches, h1, h2, h3, h4, h5]

/-- The `fetch_image` scan equals a filter of the records by the
five-coordinate predicate, mapped through the load-time preprocessing. -/
theorem fetchImage_eq_filter (ds : List Record) (r s p sl c : ℕ) :
    fetchImage ds r s p sl c =
      (ds.filter fun rec =>
          decide (rec.header.repetition = r ∧ rec.header.set = s ∧
            rec.header.phase = p ∧ rec.header.slice = sl ∧
            rec.header.contrast = c)).map
        (fun rec => preprocessPixels rec.pixels) := by
  unfold fetchImage
  have hmap : (ds.map fun rec => preprocessPixels rec.pixels) =
      ds.map ((fun rec => preprocessPixels rec.pixels) ∘ id) := by
    simp [Function.comp]
  rw [show (ds.map fun rec => preprocessPixels rec.pixels) =
      (ds.map id).map (fun rec => preprocessPixels rec.pixels) by
        simp]
  rw [show (ds.map fun rec => headerMatches rec.header r s p sl c) =
      (ds.map id).map (fun rec => headerMatches rec.header r s p sl c) by
        simp]
  rw [maskSelect_map, maskSelect_map_mask]
  simp only [List.map_id]
  congr 1
  exact List.filter_congr fun rec _ => headerMatches_eq_decide rec.header r s p sl c

/-! ## C1 -/

/-- Claim C1: for every coordinate tuple `(repetition, set, phase, slice,
contrast)`, `fetch_image` returns exactly the records whose five coordinate
fields equal the five inputs (the conjunction of the five equality
predicates), in original storage order — i.e. it is the order-preserving
filter of the dataset by that predicate (each match carrying its
preprocessed pixel tensor) — and a tuple with zero matching records yields
the empty sequence, not an error. -/
theorem fetch_image_filters_and_tolerates_empty :
    ∀ (ds : List Record) (r s p sl c : ℕ),
      fetchImage ds r s p sl c =
        (ds.filter fun rec =>
            decide (rec.header.repetition = r ∧ rec.header.set = s ∧
              rec.header.phase = p ∧ rec.header.slice = sl ∧
              rec.header.contrast = c)).map
          (fun rec => preprocessPixels rec.pixels) ∧
      ((∀ rec ∈ ds, ¬(rec.header.repetition = r ∧ rec.header.set = s ∧
          rec.header.phase = p ∧ rec.header.slice = sl ∧
          rec.header.contrast = c)) →
        fetchImage ds r s p sl c = []) := by
  intro ds r s p sl c
  refine ⟨fetchImage_eq_filter ds r s p sl c, fun hnone => ?_⟩
  rw [fetchImage_eq_filter]
  rw [List.filter_eq_nil_iff.mpr (by simpa using hnone)]
  rfl

/-- Witness for C1: on the concrete one-record dataset, the tuple
`(9, 9, 9, 9, 9)` matches nothing and `fetch_image` returns the empty
sequence. -/
theorem fetch_image_filters_and_tolerates_empty_witness :
    fetchImage [testRecordA] 9 9 9 9 9 = [] :=
  (fetch_image_filters_and_tolerates_empty [testRecordA] 9 9 9 9 9).2
    (by decide)

/-! ## C2 -/

/-- Claim C2: resolving the same five-coordinate tuple twice returns the same
sequence, the second call performs zero dataset scans (the memoized result
is returned), and the cache key is the coordinate tuple only — mutating the
rotation/flip/window/level transform state does not change the result of
`resolve`. -/
theorem resolve_memoized_and_transform_independent :
    ∀ (v : Viewer) (r s p sl c : ℕ),
      (resolve ((resolve v r s p sl c).2.1) r s p sl c).1 =
        (resolve v r s p sl c).1 ∧
      (resolve ((resolve v r s p sl c).2.1) r s p sl c).2.2 = 0 ∧
      (∀ (k : ℤ) (fh fv : Bool) (w l : ℚ),
        (resolve { v with nrot := k, fliph := fh, flipv := fv,
                          window := w, level := l } r s p sl c).1 =
          (resolve v r s p sl c).1) := by
  intro v r s p sl c
  cases hl : cacheLookup v.cache (r, s, p, sl, c) with
  | some res =>
      refine ⟨?_, ?_, ?_⟩ <;> simp [resolve, hl, cacheLookup]
  | none =>
      refine ⟨?_, ?_, ?_⟩ <;> simp [resolve, hl, cacheLookup]

/-! ## C3 -/

/-- Claim C3: with `range = max - min`, `window_level` returns exactly
`(level*range - (window/2)*range + min, level*range + (window/2)*range +
min)`; in particular for `min = 0`, `max = 100`, `window = 0.5`,
`level = 0.5` it returns `(25, 75)`. -/
theorem window_level_formula :
    (∀ v : Viewer, v.range = v.max - v.min →
      window_level v =
        (v.level * (v.max - v.min) - v.window / 2 * (v.max - v.min) + v.min,
         v.level * (v.max - v.min) + v.window / 2 * (v.max - v.min) + v.min)) ∧
    window_level c3V = (25, 75) := by
  constructor
  · intro v h
    simp [window_level, h]
  · norm_num [window_level, c3V, baseViewer]

/-- Witness for C3: the hypothesis `range = max - min` holds of the concrete
viewer, and the formula applies to it. -/
theorem window_level_formula_witness :
    c3V.range = c3V.max - c3V.min ∧
    window_level c3V =
      (c3V.level * (c3V.max - c3V.min) - c3V.window / 2 * (c3V.max - c3V.min)
         + c3V.min,
       c3V.level * (c3V.max - c3V.min) + c3V.window / 2 * (c3V.max - c3V.min)
         + c3V.min) := by
  refine ⟨by norm_num [c3V, baseViewer], ?_⟩
  exact window_level_formula.1 c3V (by norm_num [c3V, baseViewer])

/-! ## C4 -/

/-- Claim C4 (divergence): the timer tick sets the selected axis value to
`(v + 1) % maximum` where the spinbox `maximum` is the axis cardinality
minus one, not the cardinality.  For an axis of cardinality 3
(`maximum = 2`) at value 1 the code yields `(1+1) % 2 = 0` while advancing
modulo the cardinality would yield `(1+1) % 3 = 2`; the value
`2 = cardinality - 1` is never reached, and for a cardinality-2 axis
(`maximum = 1`) the tick is a no-op at value 0 forever. -/
theorem anim_increment_skips_last_value :
    animIncrement 1 2 = 0 ∧ (1 + 1) % 3 = 2 ∧
    animIncrement 1 2 ≠ (1 + 1) % 3 ∧
    animIncrement 0 1 = 0 ∧ animIncrement 1 1 = 0 := by
  decide

/-! ## C5 -/

/-- Claim C5: `pick` fails with `OutOfRangeError` whenever the instance
index reaches the match count or the channel index reaches the matched
record's channel count — the failure is surfaced as an error value, not
clamped — and in particular `pick` on the empty match set of a sparse
coordinate tuple returns `OutOfRangeError`. -/
theorem pick_out_of_range_errors :
    ∀ (ms : List RecPix) (inst chan : ℕ),
      (ms.length ≤ inst → pick ms inst chan = .error .outOfRange) ∧
      (∀ h : inst < ms.length, (ms.get ⟨inst, h⟩).length ≤ chan →
        pick ms inst chan = .error .outOfRange) ∧
      pick ([] : List RecPix) inst chan = .error .outOfRange := by
  intro ms inst chan
  have hpick : ∀ (l : List RecPix) (i c : ℕ), pick l i c =
      Except.bind (nget l i) (fun rp =>
        Except.bind (nget rp c) (fun ch => nget ch 0)) := fun _ _ _ => rfl
  refine ⟨fun hlen => ?_, fun h hchan => ?_, ?_⟩
  · rw [hpick]
    have h1 : nget ms inst = (.error .outOfRange : Except PickErr RecPix) := by
      unfold nget; rw [dif_neg (Nat.not_lt.mpr hlen)]
    rw [h1]; rfl
  · rw [hpick]
    have h1 : nget ms inst = .ok (ms.get ⟨inst, h⟩) := by
      simp [nget, h]
    rw [h1]
    have h2 : nget (ms.get ⟨inst, h⟩) chan =
        (.error .outOfRange : Except PickErr (List Img)) := by
      unfold nget; rw [dif_neg (Nat.not_lt.mpr hchan)]
    show Except.bind (nget (ms.get ⟨inst, h⟩) chan) _ = _
    rw [h2]; rfl
  · rw [hpick]
    have h0 : nget ([] : List RecPix) inst =
        (.error .outOfRange : Except PickErr RecPix) := by
      simp [nget]
    rw [h0]; rfl

/-- Witness for C5: picking instance 5 from the empty match set errors. -/
theorem pick_out_of_range_errors_witness :
    pick ([] : List RecPix) 5 0 = .error .outOfRange :=
  (pick_out_of_range_errors [] 5 0).1 (by decide)

/-! ## C6 -/

/-- Counterexample to C6: the numeric spinbox handlers do not clamp.  On the
concrete viewer of range 100, window input `-100` stores `window = -1`
(below 0) and level input `200` stores `level = 2` (above 1). -/
theorem spinbox_input_unclamped_counterexample :
    Option.map Viewer.window (window_input c6V (-100)) = some (-1) ∧
    Option.map Viewer.level (level_input c6V 200) = some 2 ∧
    ¬(0 ≤ (-1 : ℚ)) ∧ ¬((2 : ℚ) ≤ 1) := by
  refine ⟨?_, ?_, by norm_num, by norm_num⟩ <;>
    · simp only [window_input, level_input, c6V, baseViewer]
      norm_num

/-- Claim C6 as amended: after every mouse-drag window/level adjustment the
stored window lies in `[0, 2]` and the stored level in `[0, 1]` — clamping
is applied to the stored state before `update_wl` recomputes
`clip_low`/`clip_high` from it — but numeric spinbox input stores
`value / range` without any clamping. -/
theorem drag_clamps_but_spinbox_does_not :
    ∀ (v : Viewer) (q : ℚ × ℚ) (newx newy value : ℚ), v.mloc = some q →
      (0 ≤ (mouseMoveEvent v newx newy).window ∧
       (mouseMoveEvent v newx newy).window ≤ 2 ∧
       0 ≤ (mouseMoveEvent v newx newy).level ∧
       (mouseMoveEvent v newx newy).level ≤ 1) ∧
      (v.range ≠ 0 →
        Option.map Viewer.window (window_input v value) =
          some (value / v.range) ∧
        Option.map Viewer.level (level_input v value) =
          some (value / v.range)) := by
  intro v q newx newy value hml
  obtain ⟨mx, my⟩ := q
  constructor
  · simp only [mouseMoveEvent, hml]
    refine ⟨?_, ?_, ?_, ?_⟩ <;> (split_ifs <;> linarith)
  · intro hr
    simp [window_input, level_input, hr]

/-- Witness for C6 (amended): the concrete drag viewer has a recorded
anchor, its out-of-range window 5 and level -3 are clamped into bounds by
the drag handler, and its nonzero range lets the spinbox handlers store the
unclamped quotient. -/
theorem drag_clamps_but_spinbox_does_not_witness :
    dragViewer.mloc = some (0, 0) ∧
    (0 ≤ (mouseMoveEvent dragViewer 1 1).window ∧
     (mouseMoveEvent dragViewer 1 1).window ≤ 2 ∧
     0 ≤ (mouseMoveEvent dragViewer 1 1).level ∧
     (mouseMoveEvent dragViewer 1 1).level ≤ 1) := by
  have h := drag_clamps_but_spinbox_does_not dragViewer (0, 0) 1 1 7 rfl
  exact ⟨rfl, h.1⟩

/-! ## C7 -/

/-- Indexing a mapped list commutes with the map. -/
theorem nget_map {α β : Type} (g : α → β) (l : List α) (i : ℕ) :
    nget (l.map g) i = Except.map g (nget l i) := by
  unfold nget
  by_cases h : i < l.length
  · rw [dif_pos (by simpa using h), dif_pos h]
    simp [Except.map]
  · rw [dif_neg (by simpa using h), dif_neg h]
    rfl

/-- Picking from a match set whose frames are uniformly transformed yields
the transformed pick. -/
theorem pick_map (g : Img → Img) (l : List RecPix) (i c : ℕ) :
    pick (l.map fun rp => rp.map fun zs => zs.map g) i c =
      Except.map g (pick l i c) := by
  have hpick : ∀ (l' : List RecPix) (i' c' : ℕ), pick l' i' c' =
      Except.bind (nget l' i') (fun rp =>
        Except.bind (nget rp c') (fun ch => nget ch 0)) := fun _ _ _ => rfl
  rw [hpick, hpick, nget_map]
  cases hx : nget l i with
  | error e => rfl
  | ok rp =>
      show Except.bind (Except.ok (rp.map fun zs => zs.map g)) _ =
        Except.map g (Except.bind (Except.ok rp) _)
      show Except.bind (nget (rp.map fun zs => zs.map g) c) _ =
        Except.map g (Except.bind (nget rp c) _)
      rw [nget_map]
      cases hy : nget rp c with
      | error e => rfl
      | ok zs =>
          show Except.bind (Except.ok (zs.map g)) _ =
            Except.map g (Except.bind (Except.ok zs) _)
          show nget (zs.map g) 0 = Except.map g (nget zs 0)
          rw [nget_map]

/-- The `fetch_image` match set is the raw match set with the load-time
preprocessing applied to every record tensor. -/
theorem fetchImage_eq_rawResolve_map (v : Viewer) :
    fetchImage v.records v.selRepetition v.selSet v.selPhase v.selSlice
        v.selContrast =
      (rawResolve v).map preprocessPixels := by
  unfold fetchImage rawResolve
  rw [← maskSelect_map]
  congr 1
  rw [List.map_map]
  rfl

/-- The geometric stage at identity transform state is the identity. -/
theorem displayTransform_id (im : Img) :
    displayTransform 0 false false im = im := rfl

/-- Counterexample to C7: on the concrete viewer (identity transform state,
one matching record whose stored frame is `[[0, 1], [2, 3]]`), the frame
returned by `current_frame` has pixel `3` at position `(0, 0)` while the
stored tensor's spatial slice has pixel `0` there: the load-time
reorientation of `self.data_` is a geometric transform applied before the
display pipeline, so the displayed frame is not in raw storage
orientation. -/
theorem current_frame_not_raw_counterexample :
    baseViewer.nrot = 0 ∧ baseViewer.fliph = false ∧ baseViewer.flipv = false ∧
    exElem (current_frame baseViewer) 0 0 = some 3 ∧
    exElem (pick (rawResolve baseViewer) baseViewer.selInstance
      baseViewer.selChannel) 0 0 = some 0 ∧
    current_frame baseViewer ≠
      pick (rawResolve baseViewer) baseViewer.selInstance
        baseViewer.selChannel := by
  refine ⟨rfl, rfl, rfl, ?_, ?_, ?_⟩
  · decide
  · decide
  · intro hcontra
    have helem : exElem (current_frame baseViewer) 0 0 =
        exElem (pick (rawResolve baseViewer) baseViewer.selInstance
          baseViewer.selChannel) 0 0 :=
      congrArg (fun e => exElem e 0 0) hcontra
    have h3 : exElem (current_frame baseViewer) 0 0 = some 3 := by decide
    have h0 : exElem (pick (rawResolve baseViewer) baseViewer.selInstance
        baseViewer.selChannel) 0 0 = some 0 := by decide
    rw [h3, h0] at helem
    exact absurd helem (by decide)

/-- Claim C7 as amended: for every viewer whose transform state is the
identity (`nrot = 0`, no flips), the frame returned by `current_frame` is
the stored pixel tensor's spatial slice for the selected record and channel
after the fixed load-time reorientation of `self.data_` (one quarter turn
of the spatial axes followed by a mirror along the second spatial axis),
applied uniformly at dataset attach time; no transform-state-dependent
geometric transform is applied before the display pipeline. -/
theorem current_frame_identity_is_preprocessed_raw :
    ∀ v : Viewer, v.nrot = 0 → v.fliph = false → v.flipv = false →
      current_frame v =
        Except.map (fun f => flipCols (rot90 f))
          (pick (rawResolve v) v.selInstance v.selChannel) := by
  intro v h0 hh hv
  unfold current_frame
  rw [h0, hh, hv, fetchImage_eq_rawResolve_map]
  rw [show (rawResolve v).map preprocessPixels =
      (rawResolve v).map fun rp => rp.map fun zs =>
        zs.map fun f => flipCols (rot90 f) from rfl]
  rw [pick_map]
  cases pick (rawResolve v) v.selInstance v.selChannel with
  | error e => rfl
  | ok im =>
      show Except.ok (displayTransform 0 false false (flipCols (rot90 im))) = _
      rw [displayTransform_id]
      rfl

/-- Witness for C7 (amended): the concrete viewer has identity transform
state and its displayed frame is exactly the preprocessed raw slice. -/
theorem current_frame_identity_is_preprocessed_raw_witness :
    baseViewer.nrot = 0 ∧
    current_frame baseViewer =
      Except.map (fun f => flipCols (rot90 f))
        (pick (rawResolve baseViewer) baseViewer.selInstance
          baseViewer.selChannel) :=
  ⟨rfl, current_frame_identity_is_preprocessed_raw baseViewer rfl rfl rfl⟩

/-! ## C8 -/

/-- `current_frame` written through its defining projections. -/
theorem current_frame_eq (v : Viewer) :
    current_frame v =
      Except.map (displayTransform v.nrot v.fliph v.flipv)
        (pick (fetchImage v.records v.selRepetition v.selSet v.selPhase
            v.selSlice v.selContrast) v.selInstance v.selChannel) := rfl

/-- The geometric stage depends on the quarter-turn counter only modulo 4. -/
theorem displayTransform_mod (k k' : ℤ) (h : k % 4 = k' % 4)
    (fh fv : Bool) (im : Img) :
    displayTransform k fh fv im = displayTransform k' fh fv im := by
  simp only [displayTransform, rot90pow, h]

/-- Mapping pointwise-equal functions over an `Except` gives equal results. -/
theorem exceptMap_congr {α β ε : Type} {f g : α → β}
    (h : ∀ a, f a = g a) (e : Except ε α) :
    Except.map f e = Except.map g e := by
  cases e <;> simp [Except.map, h]

/-- Claim C8: for every frame and every starting transform state, four
clockwise rotations, four counter-clockwise rotations, a double horizontal
flip and a double vertical flip each leave the displayed frame unchanged. -/
theorem geometric_round_trips :
    ∀ v : Viewer,
      current_frame (rotate_cw (rotate_cw (rotate_cw (rotate_cw v)))) =
        current_frame v ∧
      current_frame (rotate_ccw (rotate_ccw (rotate_ccw (rotate_ccw v)))) =
        current_frame v ∧
      current_frame (flip_h (flip_h v)) = current_frame v ∧
      current_frame (flip_v (flip_v v)) = current_frame v := by
  intro v
  refine ⟨?_, ?_, ?_, ?_⟩
  · rw [current_frame_eq, current_frame_eq v]
    simp only [rotate_cw]
    exact exceptMap_congr
      (displayTransform_mod _ _ (by omega) v.fliph v.flipv) _
  · rw [current_frame_eq, current_frame_eq v]
    simp only [rotate_ccw]
    exact exceptMap_congr
      (displayTransform_mod _ _ (by omega) v.fliph v.flipv) _
  · have : flip_h (flip_h v) = v := by
      simp [flip_h]
    rw [this]
  · have : flip_v (flip_v v) = v := by
      simp [flip_v]
    rw [this]

/-! ## C9 -/

/-- Claim C9: a dimension of cardinality 1 (spinbox maximum 0) has its
navigation control disabled and hidden by the constructor, and attempting to
start animation while such a dimension is selected starts no timer, logs the
singleton warning and resets the animation toggle to off — the per-tick
modulo advancement is never reached, so no division by zero or no-op modulo
loop occurs. -/
theorem singleton_dimension_guard :
    ∀ (maxVal : ℕ) (s : AnimState) (interval : ℚ),
      (maxVal = 0 → initDimControls maxVal = (false, false)) ∧
      (s.checked = true → s.selMax = 0 → s.timer = none →
        (animate_frames s interval).1.checked = false ∧
        (animate_frames s interval).1.timer = none ∧
        (animate_frames s interval).2 = true) := by
  intro maxVal s interval
  refine ⟨fun h0 => by simp [initDimControls, h0], fun hc hm ht => ?_⟩
  simp [animate_frames, hc, hm, ht]

/-- Witness for C9: a cardinality-1 dimension at a concrete animation state;
the control is disabled and hidden and the animation attempt is refused. -/
theorem singleton_dimension_guard_witness :
    initDimControls 0 = (false, false) ∧
    (animate_frames ⟨true, none, 0⟩ 100).1.checked = false ∧
    (animate_frames ⟨true, none, 0⟩ 100).1.timer = none ∧
    (animate_frames ⟨true, none, 0⟩ 100).2 = true := by
  have h := singleton_dimension_guard 0 ⟨true, none, 0⟩ 100
  have h2 := h.2 rfl rfl rfl
  exact ⟨h.1 rfl, h2.1, h2.2.1, h2.2.2⟩

/-! ## C10 -/

/-- Claim C10: the contrast defaults and the window/level spinbox handlers
divide by `range = max - min` with no zero guard: with `max > min` the
defaults are the stated quotients, while a zero range makes both the
percentile defaults and the `value / range` spinbox conversion fail with a
division by zero. -/
theorem contrast_division_unguarded :
    ∀ (dmin dmax p2 p98 : ℚ) (v : Viewer) (value : ℚ),
      (dmax > dmin → initContrastDefaults dmin dmax p2 p98 =
        some ((p98 - p2) / (dmax - dmin), (p98 + p2) / 2 / (dmax - dmin))) ∧
      (dmax - dmin = 0 → initContrastDefaults dmin dmax p2 p98 = none) ∧
      (v.range = 0 → window_input v value = none ∧
        level_input v value = none) := by
  intro dmin dmax p2 p98 v value
  refine ⟨fun hlt => ?_, fun hz => ?_, fun hr => ?_⟩
  · have hne : dmax - dmin ≠ 0 := sub_ne_zero.mpr (ne_of_gt hlt)
    simp [initContrastDefaults, hne]
  · simp [initContrastDefaults, hz]
  · simp [window_input, level_input, hr]

/-- Witness for C10: a range-5 dataset gets the quotient defaults; a
constant dataset (`min = max = 3`) fails; the zero-range concrete viewer's
spinbox handlers fail. -/
theorem contrast_division_unguarded_witness :
    initContrastDefaults 0 5 1 4 =
      some ((4 - 1) / (5 - 0), (4 + 1) / 2 / (5 - 0)) ∧
    initContrastDefaults 3 3 1 2 = none ∧
    window_input baseViewer 7 = none ∧
    level_input baseViewer 7 = none := by
  have h1 := contrast_division_unguarded 0 5 1 4 baseViewer 7
  have h2 := contrast_division_unguarded 3 3 1 2 baseViewer 7
  have h3 := h2.2.2 rfl
  exact ⟨h1.1 (by norm_num), h2.2.1 (by norm_num), h3.1, h3.2⟩
